import Mathlib

/-!
# Verification of the `SessionAuthAgent` module of ez-js-rest-client

Shallow embedding of `SessionAuthAgent` (file
`jsRestClientBundle/Resources/public/js` bundle, the `define(["structures/CAPIError",
"storages/LocalStorage"], ...)` module) into Lean 4.

Modelling decisions, all taken from the source:

* The storage collaborator (`LocalStorage` / `sessionStorage`) is a string
  key/value map with `getItem`, `setItem`, `removeItem`.  JavaScript object /
  web-storage semantics (keyed assignment overwrites, `removeItem` deletes,
  `getItem` yields `null` when absent) are modelled by an association list with
  first-match lookup, in-place replacement on `setItem` and filtering on
  `removeItem`; `null` is `Option.none`.
* Node-style callbacks receive `(error, result)`.  The `error` argument is the
  literal `false` on success, the literal `true` in two hand-written places
  (`isLoggedIn` without a session), or an opaque error object coming from the
  collaborator; `ErrVal` covers the three cases and `ErrVal.truthy` is the
  JavaScript truthiness test `if (error)`.
* Each agent operation is compiled to a pure function returning the updated
  agent, the ordered list of collaborator calls it made (`CollabCall`), and
  the ordered list of invocations of its own callback (`cbs`); the collaborator
  (`UserService`, reached through `this._CAPI.getUserService()`) is an oracle
  assigning a response to each call.
* JavaScript truthiness of optional string fields of `authInfo` (`undefined`,
  `null` and `""` are falsy) is `jsTruthy`.
-/

/-- A JavaScript callback-convention `error` argument: the literal `false`,
the literal `true`, or an opaque error object (e.g. a `CAPIError`) forwarded
from the collaborator. -/
inductive ErrVal where
  | fls : ErrVal
  | tru : ErrVal
  | obj : String → ErrVal
deriving DecidableEq, Repr

/-- JavaScript truthiness of an `error` callback argument: only the literal
`false` is falsy among the values the module handles. -/
def ErrVal.truthy : ErrVal → Bool
  | .fls => false
  | .tru => true
  | .obj _ => true

/-- The key/value storage collaborator state: an association list mapping
string keys to string values, mirroring `LocalStorage`/`sessionStorage`. -/
abbrev Store := List (String × String)

/-- `storage.getItem(key)`: first value bound to `key`, or `none` for the
JavaScript `null` returned when the key is absent. -/
def Store.getItem : Store → String → Option String
  | [], _ => none
  | (k', v) :: rest, k => if k' = k then some v else Store.getItem rest k

/-- `storage.setItem(key, value)`: overwrite the binding of `key` in place if
present, otherwise append it. -/
def Store.setItem : Store → String → String → Store
  | [], k, v => [(k, v)]
  | (k', v') :: rest, k, v =>
      if k' = k then (k, v) :: rest else (k', v') :: Store.setItem rest k v

/-- `storage.removeItem(key)`: delete every binding of `key`. -/
def Store.removeItem (s : Store) (k : String) : Store :=
  s.filter (fun p => p.1 ≠ k)

/-- The `CAPIError` structure (`structures/CAPIError`): the module only ever
builds it from a message string. -/
inductive CAPIError where
  | mk : String → CAPIError
deriving DecidableEq, Repr

/-- The `Session` object found at `sessionResponse.document.Session`; the
source reads its `name`, `_href`, `identifier` and `csrfToken` fields (the
`href` field here stands for the source's `_href`). -/
structure Session where
  name : String
  href : String
  identifier : String
  csrfToken : String
deriving DecidableEq, Repr

/-- The parsed body of a session-create response: the source dereferences
`sessionResponse.document.Session`. -/
structure SessionDocument where
  Session : Session
deriving DecidableEq, Repr

/-- A response delivered to the `createSession` callback. -/
structure SessionResponse where
  document : SessionDocument
deriving DecidableEq, Repr

/-- JavaScript `String.prototype.toUpperCase`, as used on HTTP method names:
upper-case every character (ASCII, via `Char.toUpper`). -/
def jsToUpperCase (s : String) : String :=
  ⟨s.data.map Char.toUpper⟩

/-- A request as seen by `authenticateRequest`: a `method` string and a
mutable `headers` mapping (same keyed-assignment semantics as the storage). -/
structure Request where
  method : String
  headers : List (String × String)
deriving DecidableEq, Repr

/-- The session-create payload built by
`userService.newSessionCreateStruct(login, password)`. -/
structure SessionCreateStruct where
  login : String
  password : String
deriving DecidableEq, Repr

/-- A JavaScript value appearing as the second (`result`) callback argument
somewhere in the module. -/
inductive Value where
  | bool : Bool → Value
  | resp : SessionResponse → Value
  | request : Request → Value
  | raw : String → Value
deriving DecidableEq, Repr

/-- One call from the agent to the user-service collaborator, with its
arguments. -/
inductive CollabCall where
  | newSessionCreateStruct : String → String → CollabCall
  | createSession : SessionCreateStruct → CollabCall
  | refreshSession : String → CollabCall
  | deleteSession : String → CollabCall
deriving DecidableEq, Repr

/-- The user-service collaborator (`this._CAPI.getUserService()`), as an
oracle assigning to each call the `(error, result)` pair it passes to its
callback.  `createSession` always hands back a `SessionResponse` object (on
the error path the agent forwards it untouched). -/
structure UserService where
  createSession : SessionCreateStruct → ErrVal × SessionResponse
  refreshSession : String → ErrVal × Value
  deleteSession : String → ErrVal × Value

/-- `userService.newSessionCreateStruct(login, password)` is pure data
shaping; the agent records the call in its trace. -/
def UserService.newSessionCreateStruct (login password : String) :
    SessionCreateStruct :=
  { login := login, password := password }

/-- The `authInfo` constructor argument: an object literal whose six
documented fields may each be absent. -/
structure AuthInfo where
  login : Option String := none
  password : Option String := none
  name : Option String := none
  identifier : Option String := none
  href : Option String := none
  csrfToken : Option String := none
deriving DecidableEq, Repr

/-- JavaScript truthiness of an optional string field: absent (`undefined` /
`null`) and the empty string are falsy. -/
def jsTruthy : Option String → Bool
  | none => false
  | some s => !(s == "")

/-- The state of a `SessionAuthAgent` instance: the `_login` and `_password`
properties and the `_storage` collaborator.  The `_CAPI` property is supplied
to each operation as an explicit `UserService` argument (the source reads it
through `this._CAPI.getUserService()` after `setCAPI` injection). -/
structure SessionAuthAgent where
  login : String
  password : String
  storage : Store
deriving DecidableEq, Repr

namespace SessionAuthAgent

/-- `SessionAuthAgent.KEY_SESSION_NAME` -/
def KEY_SESSION_NAME : String := "ezpRestClient.sessionName"

/-- `SessionAuthAgent.KEY_SESSION_ID` -/
def KEY_SESSION_ID : String := "ezpRestClient.sessionId"

/-- `SessionAuthAgent.KEY_SESSION_HREF` -/
def KEY_SESSION_HREF : String := "ezpRestClient.sessionHref"

/-- `SessionAuthAgent.KEY_CSRF_TOKEN` -/
def KEY_CSRF_TOKEN : String := "ezpRestClient.csrfToken"

/-- `SAFE_METHODS = {'GET': 1, 'HEAD': 1, 'OPTIONS': 1, 'TRACE': 1}`; the
source tests `SAFE_METHODS[request.method.toUpperCase()] !== 1`, i.e. exact
membership of the upper-cased method. -/
def SAFE_METHODS : List String := ["GET", "HEAD", "OPTIONS", "TRACE"]

/-- The argument of `_storeSessionInfo`: the session info object literal. -/
structure SessionInfo where
  name : String
  identifier : String
  href : String
  csrfToken : String
deriving DecidableEq, Repr

/-- `SessionAuthAgent.prototype._storeSessionInfo`: four `setItem` calls, in
source order (name, href, identifier, csrfToken). -/
def storeSessionInfo (storage : Store) (session : SessionInfo) : Store :=
  (((storage.setItem KEY_SESSION_NAME session.name).setItem
      KEY_SESSION_HREF session.href).setItem
      KEY_SESSION_ID session.identifier).setItem
      KEY_CSRF_TOKEN session.csrfToken

/-- `SessionAuthAgent.prototype._resetStorage`: four `removeItem` calls, in
source order (name, id, href, csrfToken). -/
def resetStorage (storage : Store) : Store :=
  (((storage.removeItem KEY_SESSION_NAME).removeItem
      KEY_SESSION_ID).removeItem
      KEY_SESSION_HREF).removeItem
      KEY_CSRF_TOKEN

/-- `SessionAuthAgent.prototype.setCredentials`: copies `credentials.login`
and `credentials.password` into the agent (`getD ""` stands for the raw field
read; every caller in the module has checked both fields truthy first). -/
def setCredentials (that : SessionAuthAgent) (credentials : AuthInfo) :
    SessionAuthAgent :=
  { that with
      login := credentials.login.getD ""
      password := credentials.password.getD "" }

/-- The `SessionAuthAgent` constructor body.  `this._login`/`this._password`
start as `""`; then, only when `authInfo` is supplied: a truthy
`login`/`password` pair selects `setCredentials`, otherwise truthy
`csrfToken`/`identifier`/`name`/`href` select `_storeSessionInfo`, otherwise
`throw new CAPIError("Invalid authInfo parameter")`. -/
def construct (authInfo : Option AuthInfo) (storage : Store) :
    Except CAPIError SessionAuthAgent :=
  let that : SessionAuthAgent := { login := "", password := "", storage := storage }
  match authInfo with
  | none => .ok that
  | some info =>
      if jsTruthy info.login && jsTruthy info.password then
        .ok (setCredentials that info)
      else if jsTruthy info.csrfToken && jsTruthy info.identifier &&
          jsTruthy info.name && jsTruthy info.href then
        .ok { that with
                storage := storeSessionInfo storage
                  { name := info.name.getD ""
                    identifier := info.identifier.getD ""
                    href := info.href.getD ""
                    csrfToken := info.csrfToken.getD "" } }
      else
        .error (CAPIError.mk "Invalid authInfo parameter")

/-- The observable outcome of one agent operation: the updated agent, the
collaborator calls made (in order), and the invocations of the operation's
own callback (in order, each with its `(error, result)` arguments). -/
structure OpResult where
  agent : SessionAuthAgent
  calls : List CollabCall
  cbs : List (ErrVal × Value)
deriving DecidableEq, Repr

/-- `SessionAuthAgent.prototype.ensureAuthentication`. -/
def ensureAuthentication (that : SessionAuthAgent) (userService : UserService) :
    OpResult :=
  match that.storage.getItem KEY_SESSION_ID with
  | some _ => { agent := that, calls := [], cbs := [(.fls, .bool true)] }
  | none =>
      let sessionCreateStruct :=
        UserService.newSessionCreateStruct that.login that.password
      let result := userService.createSession sessionCreateStruct
      let error := result.1
      let sessionResponse := result.2
      let calls : List CollabCall :=
        [.newSessionCreateStruct that.login that.password,
         .createSession sessionCreateStruct]
      if error.truthy then
        { agent := that, calls := calls, cbs := [(error, .resp sessionResponse)] }
      else
        let session := sessionResponse.document.Session
        { agent :=
            { that with
                storage := storeSessionInfo that.storage
                  { name := session.name
                    href := session.href
                    identifier := session.identifier
                    csrfToken := session.csrfToken } }
          calls := calls
          cbs := [(.fls, .resp sessionResponse)] }

/-- `SessionAuthAgent.prototype.isLoggedIn`. -/
def isLoggedIn (that : SessionAuthAgent) (userService : UserService) :
    OpResult :=
  match that.storage.getItem KEY_SESSION_ID with
  | none => { agent := that, calls := [], cbs := [(.tru, .bool false)] }
  | some sessionId =>
      let result := userService.refreshSession sessionId
      let error := result.1
      if error.truthy then
        { agent := { that with storage := resetStorage that.storage }
          calls := [.refreshSession sessionId]
          cbs := [result] }
      else
        { agent := that
          calls := [.refreshSession sessionId]
          cbs := [result] }

/-- `SessionAuthAgent.prototype.logOut`. -/
def logOut (that : SessionAuthAgent) (userService : UserService) : OpResult :=
  match that.storage.getItem KEY_SESSION_HREF with
  | none => { agent := that, calls := [], cbs := [(.fls, .bool true)] }
  | some sessionHref =>
      let result := userService.deleteSession sessionHref
      let error := result.1
      if error.truthy then
        { agent := that
          calls := [.deleteSession sessionHref]
          cbs := [result] }
      else
        { agent := { that with storage := resetStorage that.storage }
          calls := [.deleteSession sessionHref]
          cbs := [result] }

/-- `SessionAuthAgent.prototype.logIn`: with a stored session id, `logOut`
first, with an anonymous callback that discards `logOut`'s `(error, result)`
and chains into `ensureAuthentication(callback)`; otherwise
`ensureAuthentication(callback)` directly.  Only `ensureAuthentication`
reaches the caller's callback. -/
def logIn (that : SessionAuthAgent) (userService : UserService) : OpResult :=
  match that.storage.getItem KEY_SESSION_ID with
  | some _ =>
      let r1 := logOut that userService
      let r2 := ensureAuthentication r1.agent userService
      { agent := r2.agent, calls := r1.calls ++ r2.calls, cbs := r2.cbs }
  | none => ensureAuthentication that userService

/-- `SessionAuthAgent.prototype.authenticateRequest`: reads the CSRF token,
mutates `request.headers["X-CSRF-Token"]` only when the upper-cased method is
not in `SAFE_METHODS` and a token is stored, then calls `done(false, request)`.
Returns the final request and the callback invocations. -/
def authenticateRequest (that : SessionAuthAgent) (request : Request) :
    Request × List (ErrVal × Value) :=
  let token := that.storage.getItem KEY_CSRF_TOKEN
  let request :=
    match SAFE_METHODS.contains (jsToUpperCase request.method), token with
    | false, some t =>
        { request with headers := Store.setItem request.headers "X-CSRF-Token" t }
    | _, _ => request
  (request, [(.fls, .request request)])

end SessionAuthAgent



/-- A concrete session object used in witnesses, matching the spec's worked
scenario. -/
def demoSession : Session :=
  { name := "eZSESSID", href := "/sessions/abc", identifier := "abc",
    csrfToken := "tok1" }

/-- A concrete session-create response wrapping `demoSession`. -/
def demoResponse : SessionResponse :=
  { document := { Session := demoSession } }

/-- A collaborator whose three operations all succeed; `createSession`
delivers `demoResponse`. -/
def okService : UserService :=
  { createSession := fun _ => (.fls, demoResponse)
    refreshSession := fun _ => (.fls, .bool true)
    deleteSession := fun _ => (.fls, .bool true) }

/-- A collaborator whose three operations all fail with opaque error
objects. -/
def failingService : UserService :=
  { createSession := fun _ => (.obj "SessionCreateFailed", demoResponse)
    refreshSession := fun _ => (.obj "SessionRefreshFailed", .bool false)
    deleteSession := fun _ => (.obj "SessionDeleteFailed", .bool false) }

/-- A storage holding the four session keys for `demoSession`. -/
def demoStorage : Store :=
  [(SessionAuthAgent.KEY_SESSION_NAME, "eZSESSID"),
   (SessionAuthAgent.KEY_SESSION_ID, "abc"),
   (SessionAuthAgent.KEY_SESSION_HREF, "/sessions/abc"),
   (SessionAuthAgent.KEY_CSRF_TOKEN, "tok1")]

/-- An agent holding credentials and an empty storage. -/
def freshAgent : SessionAuthAgent :=
  { login := "admin", password := "publish", storage := [] }

/-- An agent holding credentials and a fully populated session storage. -/
def sessionAgent : SessionAuthAgent :=
  { login := "admin", password := "publish", storage := demoStorage }

-- ## Theorems

theorem Store.getItem_setItem_self (s : Store) (k v : String) :
    (s.setItem k v).getItem k = some v := by
  induction s with
  | nil => simp [Store.setItem, Store.getItem]
  | cons hd tl ih =>
      by_cases h : hd.1 = k <;>
        simp [Store.setItem, Store.getItem, h, ih]

theorem Store.getItem_setItem_ne (s : Store) (k k' v : String) (h : k' ≠ k) :
    (s.setItem k v).getItem k' = s.getItem k' := by
  induction s with
  | nil => simp [Store.setItem, Store.getItem, Ne.symm h]
  | cons hd tl ih =>
      by_cases hk : hd.1 = k
      · simp [Store.setItem, Store.getItem, hk, Ne.symm h]
      · by_cases hk' : hd.1 = k' <;>
          simp [Store.setItem, Store.getItem, hk, hk', ih, h, Ne.symm h]

theorem Store.getItem_removeItem_self (s : Store) (k : String) :
    (s.removeItem k).getItem k = none := by
  induction s with
  | nil => simp [Store.removeItem, Store.getItem]
  | cons hd tl ih =>
      by_cases h : hd.1 = k <;>
        simp_all [Store.removeItem, Store.getItem, List.filter]

theorem Store.getItem_removeItem_ne (s : Store) (k k' : String) (h : k' ≠ k) :
    (s.removeItem k).getItem k' = s.getItem k' := by
  induction s with
  | nil => simp [Store.removeItem, Store.getItem]
  | cons hd tl ih =>
      by_cases hk : hd.1 = k
      · simp_all [Store.removeItem, Store.getItem, List.filter, Ne.symm h]
      · by_cases hk' : hd.1 = k'
        · simp_all [Store.removeItem, Store.getItem, List.filter]
        · simp_all [Store.removeItem, Store.getItem, List.filter]

open SessionAuthAgent

theorem getItem_storeSessionInfo_name (storage : Store) (s : SessionInfo) :
    (storeSessionInfo storage s).getItem KEY_SESSION_NAME = some s.name := by
  unfold storeSessionInfo
  rw [Store.getItem_setItem_ne _ _ _ _ (by decide),
      Store.getItem_setItem_ne _ _ _ _ (by decide),
      Store.getItem_setItem_ne _ _ _ _ (by decide),
      Store.getItem_setItem_self]

theorem getItem_storeSessionInfo_id (storage : Store) (s : SessionInfo) :
    (storeSessionInfo storage s).getItem KEY_SESSION_ID = some s.identifier := by
  unfold storeSessionInfo
  rw [Store.getItem_setItem_ne _ _ _ _ (by decide),
      Store.getItem_setItem_self]

theorem getItem_storeSessionInfo_href (storage : Store) (s : SessionInfo) :
    (storeSessionInfo storage s).getItem KEY_SESSION_HREF = some s.href := by
  unfold storeSessionInfo
  rw [Store.getItem_setItem_ne _ _ _ _ (by decide),
      Store.getItem_setItem_ne _ _ _ _ (by decide),
      Store.getItem_setItem_self]

theorem getItem_storeSessionInfo_token (storage : Store) (s : SessionInfo) :
    (storeSessionInfo storage s).getItem KEY_CSRF_TOKEN = some s.csrfToken := by
  unfold storeSessionInfo
  rw [Store.getItem_setItem_self]

theorem getItem_resetStorage_name (storage : Store) :
    (resetStorage storage).getItem KEY_SESSION_NAME = none := by
  unfold resetStorage
  rw [Store.getItem_removeItem_ne _ _ _ (by decide),
      Store.getItem_removeItem_ne _ _ _ (by decide),
      Store.getItem_removeItem_ne _ _ _ (by decide),
      Store.getItem_removeItem_self]

theorem getItem_resetStorage_id (storage : Store) :
    (resetStorage storage).getItem KEY_SESSION_ID = none := by
  unfold resetStorage
  rw [Store.getItem_removeItem_ne _ _ _ (by decide),
      Store.getItem_removeItem_ne _ _ _ (by decide),
      Store.getItem_removeItem_self]

theorem getItem_resetStorage_href (storage : Store) :
    (resetStorage storage).getItem KEY_SESSION_HREF = none := by
  unfold resetStorage
  rw [Store.getItem_removeItem_ne _ _ _ (by decide),
      Store.getItem_removeItem_self]

theorem getItem_resetStorage_token (storage : Store) :
    (resetStorage storage).getItem KEY_CSRF_TOKEN = none := by
  unfold resetStorage
  rw [Store.getItem_removeItem_self]

theorem ensureAuthentication_some (a : SessionAuthAgent) (us : UserService)
    (sid : String) (h : a.storage.getItem KEY_SESSION_ID = some sid) :
    ensureAuthentication a us =
      { agent := a, calls := [], cbs := [(.fls, .bool true)] } := by
  unfold ensureAuthentication
  rw [h]

theorem ensureAuthentication_none_ok (a : SessionAuthAgent) (us : UserService)
    (hid : a.storage.getItem KEY_SESSION_ID = none)
    (hok : (us.createSession
        (UserService.newSessionCreateStruct a.login a.password)).1.truthy = false) :
    ensureAuthentication a us =
      { agent :=
          { a with
              storage := storeSessionInfo a.storage
                { name := (us.createSession
                    (UserService.newSessionCreateStruct a.login a.password)).2.document.Session.name
                  identifier := (us.createSession
                    (UserService.newSessionCreateStruct a.login a.password)).2.document.Session.identifier
                  href := (us.createSession
                    (UserService.newSessionCreateStruct a.login a.password)).2.document.Session.href
                  csrfToken := (us.createSession
                    (UserService.newSessionCreateStruct a.login a.password)).2.document.Session.csrfToken } }
        calls := [.newSessionCreateStruct a.login a.password,
                  .createSession (UserService.newSessionCreateStruct a.login a.password)]
        cbs := [(.fls, .resp (us.createSession
                  (UserService.newSessionCreateStruct a.login a.password)).2)] } := by
  unfold ensureAuthentication
  rw [hid]
  simp [hok]

theorem ensureAuthentication_none_err (a : SessionAuthAgent) (us : UserService)
    (hid : a.storage.getItem KEY_SESSION_ID = none)
    (herr : (us.createSession
        (UserService.newSessionCreateStruct a.login a.password)).1.truthy = true) :
    ensureAuthentication a us =
      { agent := a
        calls := [.newSessionCreateStruct a.login a.password,
                  .createSession (UserService.newSessionCreateStruct a.login a.password)]
        cbs := [((us.createSession
                    (UserService.newSessionCreateStruct a.login a.password)).1,
                 .resp (us.createSession
                    (UserService.newSessionCreateStruct a.login a.password)).2)] } := by
  unfold ensureAuthentication
  rw [hid]
  simp [herr]

theorem isLoggedIn_none (a : SessionAuthAgent) (us : UserService)
    (h : a.storage.getItem KEY_SESSION_ID = none) :
    isLoggedIn a us = { agent := a, calls := [], cbs := [(.tru, .bool false)] } := by
  unfold isLoggedIn
  rw [h]

theorem isLoggedIn_some (a : SessionAuthAgent) (us : UserService) (sid : String)
    (h : a.storage.getItem KEY_SESSION_ID = some sid) :
    isLoggedIn a us =
      { agent :=
          if (us.refreshSession sid).1.truthy then
            { a with storage := resetStorage a.storage }
          else a
        calls := [.refreshSession sid]
        cbs := [us.refreshSession sid] } := by
  unfold isLoggedIn
  rw [h]
  by_cases htr : (us.refreshSession sid).1.truthy <;> simp [htr]

theorem logOut_none (a : SessionAuthAgent) (us : UserService)
    (h : a.storage.getItem KEY_SESSION_HREF = none) :
    logOut a us = { agent := a, calls := [], cbs := [(.fls, .bool true)] } := by
  unfold logOut
  rw [h]

theorem logOut_some (a : SessionAuthAgent) (us : UserService) (href : String)
    (h : a.storage.getItem KEY_SESSION_HREF = some href) :
    logOut a us =
      { agent :=
          if (us.deleteSession href).1.truthy then a
          else { a with storage := resetStorage a.storage }
        calls := [.deleteSession href]
        cbs := [us.deleteSession href] } := by
  unfold logOut
  rw [h]
  by_cases htr : (us.deleteSession href).1.truthy <;> simp [htr]

theorem ensureAuthentication_cbs_length (a : SessionAuthAgent)
    (us : UserService) : (ensureAuthentication a us).cbs.length = 1 := by
  unfold ensureAuthentication
  cases a.storage.getItem KEY_SESSION_ID
  · by_cases htr : (us.createSession
        (UserService.newSessionCreateStruct a.login a.password)).1.truthy <;>
      simp [htr]
  · simp

theorem isLoggedIn_cbs_length (a : SessionAuthAgent) (us : UserService) :
    (isLoggedIn a us).cbs.length = 1 := by
  unfold isLoggedIn
  cases h : a.storage.getItem KEY_SESSION_ID with
  | none => simp
  | some sid => by_cases htr : (us.refreshSession sid).1.truthy <;> simp [htr]

theorem logOut_cbs_length (a : SessionAuthAgent) (us : UserService) :
    (logOut a us).cbs.length = 1 := by
  unfold logOut
  cases h : a.storage.getItem KEY_SESSION_HREF with
  | none => simp
  | some href => by_cases htr : (us.deleteSession href).1.truthy <;> simp [htr]

theorem logIn_cbs_length (a : SessionAuthAgent) (us : UserService) :
    (logIn a us).cbs.length = 1 := by
  unfold logIn
  cases a.storage.getItem KEY_SESSION_ID <;>
    simp [ensureAuthentication_cbs_length]

theorem authenticateRequest_cbs_length (a : SessionAuthAgent) (req : Request) :
    (authenticateRequest a req).2.length = 1 := by
  unfold authenticateRequest
  simp

/-- C1 (counterexample): constructing with no `authInfo` at all does not
raise `InvalidAuthInfo` — the constructor skips validation entirely when
`authInfo` is absent and yields an agent with empty credentials. -/
theorem c1_no_authInfo_silently_accepted :
    SessionAuthAgent.construct none [] =
      Except.ok { login := "", password := "", storage := [] } := rfl

/-- C1 (amended): for every authInfo argument that IS supplied (non-null) at
`SessionAuthAgent` construction and is neither a complete credential pair
(login and password both truthy) nor a complete session descriptor (name,
identifier, href and csrfToken all truthy), construction raises the
`InvalidAuthInfo` error (`CAPIError "Invalid authInfo parameter"`)
synchronously; when no authInfo is supplied at all, construction silently
succeeds with empty credentials. -/
theorem c1_supplied_invalid_authInfo_rejected (info : AuthInfo) (storage : Store)
    (hcred : (jsTruthy info.login && jsTruthy info.password) = false)
    (hsess : (jsTruthy info.csrfToken && jsTruthy info.identifier &&
        jsTruthy info.name && jsTruthy info.href) = false) :
    SessionAuthAgent.construct (some info) storage =
      Except.error (CAPIError.mk "Invalid authInfo parameter") := by
  simp [SessionAuthAgent.construct, hcred, hsess]

/-- C1 (witness): an authInfo carrying only a login is rejected at
construction. -/
theorem c1_supplied_invalid_authInfo_rejected_witness :
    SessionAuthAgent.construct (some { login := some "admin" }) [] =
      Except.error (CAPIError.mk "Invalid authInfo parameter") :=
  c1_supplied_invalid_authInfo_rejected { login := some "admin" } []
    (by decide) (by decide)

/-- C2: with no stored session identifier, `ensureAuthentication` makes
exactly the two collaborator calls `newSessionCreateStruct(login, password)`
and `createSession(struct)` — one session-create request built from the held
credentials — and, when the collaborator reports success, persists all four
session fields from the response body and reports success once; when the
collaborator reports failure, the store is left untouched (all four written
or none). -/
theorem c2_first_ensureAuthentication (a : SessionAuthAgent) (us : UserService)
    (hid : a.storage.getItem KEY_SESSION_ID = none) :
    (ensureAuthentication a us).calls =
      [.newSessionCreateStruct a.login a.password,
       .createSession (UserService.newSessionCreateStruct a.login a.password)] ∧
    ((us.createSession
        (UserService.newSessionCreateStruct a.login a.password)).1.truthy = false →
      (ensureAuthentication a us).agent.storage.getItem KEY_SESSION_NAME =
        some (us.createSession
          (UserService.newSessionCreateStruct a.login a.password)).2.document.Session.name ∧
      (ensureAuthentication a us).agent.storage.getItem KEY_SESSION_ID =
        some (us.createSession
          (UserService.newSessionCreateStruct a.login a.password)).2.document.Session.identifier ∧
      (ensureAuthentication a us).agent.storage.getItem KEY_SESSION_HREF =
        some (us.createSession
          (UserService.newSessionCreateStruct a.login a.password)).2.document.Session.href ∧
      (ensureAuthentication a us).agent.storage.getItem KEY_CSRF_TOKEN =
        some (us.createSession
          (UserService.newSessionCreateStruct a.login a.password)).2.document.Session.csrfToken ∧
      (ensureAuthentication a us).cbs =
        [(.fls, .resp (us.createSession
          (UserService.newSessionCreateStruct a.login a.password)).2)]) ∧
    ((us.createSession
        (UserService.newSessionCreateStruct a.login a.password)).1.truthy = true →
      (ensureAuthentication a us).agent = a) := by
  by_cases htr : (us.createSession
      (UserService.newSessionCreateStruct a.login a.password)).1.truthy
  · rw [ensureAuthentication_none_err a us hid htr]
    simp [htr]
  · rw [ensureAuthentication_none_ok a us hid (by simp [htr])]
    simp [htr, getItem_storeSessionInfo_name, getItem_storeSessionInfo_id,
      getItem_storeSessionInfo_href, getItem_storeSessionInfo_token]

/-- C2 (witness): the fresh agent with a succeeding collaborator makes the
two calls and ends with the session identifier stored. -/
theorem c2_first_ensureAuthentication_witness :
    (ensureAuthentication freshAgent okService).calls =
      [.newSessionCreateStruct "admin" "publish",
       .createSession (UserService.newSessionCreateStruct "admin" "publish")] ∧
    (ensureAuthentication freshAgent okService).agent.storage.getItem
      KEY_SESSION_ID = some "abc" :=
  ⟨(c2_first_ensureAuthentication freshAgent okService (by decide)).1,
   (((c2_first_ensureAuthentication freshAgent okService (by decide)).2.1
      (by decide)).2.1)⟩

/-- C3: with a session identifier already stored, `ensureAuthentication`
makes zero collaborator calls, returns the agent (and hence the Store)
unchanged, and reports success (`done(false, true)`) immediately. -/
theorem c3_stored_session_trusted (a : SessionAuthAgent) (us : UserService)
    (sid : String) (h : a.storage.getItem KEY_SESSION_ID = some sid) :
    ensureAuthentication a us =
      { agent := a, calls := [], cbs := [(.fls, .bool true)] } :=
  ensureAuthentication_some a us sid h

/-- C3 (witness): the fully populated agent passes `ensureAuthentication`
without contacting the (failing) collaborator. -/
theorem c3_stored_session_trusted_witness :
    ensureAuthentication sessionAgent failingService =
      { agent := sessionAgent, calls := [], cbs := [(.fls, .bool true)] } :=
  c3_stored_session_trusted sessionAgent failingService "abc" (by decide)

/-- C4: with a stored session identifier and a collaborator whose
`refreshSession` reports an error, `isLoggedIn` removes all four Store keys
and invokes its callback once with the collaborator's `(error, result)` pair
unchanged. -/
theorem c4_refresh_failure_clears_storage (a : SessionAuthAgent)
    (us : UserService) (sid : String)
    (hid : a.storage.getItem KEY_SESSION_ID = some sid)
    (herr : (us.refreshSession sid).1.truthy = true) :
    (isLoggedIn a us).agent.storage.getItem KEY_SESSION_NAME = none ∧
    (isLoggedIn a us).agent.storage.getItem KEY_SESSION_ID = none ∧
    (isLoggedIn a us).agent.storage.getItem KEY_SESSION_HREF = none ∧
    (isLoggedIn a us).agent.storage.getItem KEY_CSRF_TOKEN = none ∧
    (isLoggedIn a us).cbs = [us.refreshSession sid] := by
  rw [isLoggedIn_some a us sid hid]
  simp [herr, getItem_resetStorage_name, getItem_resetStorage_id,
    getItem_resetStorage_href, getItem_resetStorage_token]

/-- C4 (witness): the populated agent against the failing collaborator ends
with an empty session storage and the error passed through. -/
theorem c4_refresh_failure_clears_storage_witness :
    (isLoggedIn sessionAgent failingService).agent.storage.getItem
      KEY_SESSION_ID = none ∧
    (isLoggedIn sessionAgent failingService).cbs =
      [(.obj "SessionRefreshFailed", .bool false)] :=
  ⟨(c4_refresh_failure_clears_storage sessionAgent failingService "abc"
      (by decide) (by decide)).2.1,
   (c4_refresh_failure_clears_storage sessionAgent failingService "abc"
      (by decide) (by decide)).2.2.2.2⟩

/-- C5: with a session href stored, `logOut` calls `deleteSession(href)`
exactly once and hands the collaborator's `(error, result)` pair to its own
callback unchanged; on a successful delete all four Store keys end up absent,
and on a failed delete the agent (hence every Store key) is unchanged. -/
theorem c5_logout_clears_or_keeps (a : SessionAuthAgent) (us : UserService)
    (href : String) (h : a.storage.getItem KEY_SESSION_HREF = some href) :
    (logOut a us).calls = [.deleteSession href] ∧
    (logOut a us).cbs = [us.deleteSession href] ∧
    ((us.deleteSession href).1.truthy = false →
      (logOut a us).agent.storage.getItem KEY_SESSION_NAME = none ∧
      (logOut a us).agent.storage.getItem KEY_SESSION_ID = none ∧
      (logOut a us).agent.storage.getItem KEY_SESSION_HREF = none ∧
      (logOut a us).agent.storage.getItem KEY_CSRF_TOKEN = none) ∧
    ((us.deleteSession href).1.truthy = true → (logOut a us).agent = a) := by
  rw [logOut_some a us href h]
  by_cases htr : (us.deleteSession href).1.truthy <;>
    simp [htr, getItem_resetStorage_name, getItem_resetStorage_id,
      getItem_resetStorage_href, getItem_resetStorage_token]

/-- C5 (witness): a failed delete leaves the populated agent unchanged and
reports the delete error; the call was made. -/
theorem c5_logout_clears_or_keeps_witness :
    (logOut sessionAgent failingService).cbs =
      [(.obj "SessionDeleteFailed", .bool false)] ∧
    (logOut sessionAgent failingService).agent = sessionAgent :=
  ⟨(c5_logout_clears_or_keeps sessionAgent failingService "/sessions/abc"
      (by decide)).2.1,
   (c5_logout_clears_or_keeps sessionAgent failingService "/sessions/abc"
      (by decide)).2.2.2 (by decide)⟩

/-- C6: with no session href stored, `logOut` reports success once
(`done(false, true)`) without any collaborator call and with the agent (hence
the Store) unchanged. -/
theorem c6_logout_without_href_noop (a : SessionAuthAgent) (us : UserService)
    (h : a.storage.getItem KEY_SESSION_HREF = none) :
    logOut a us = { agent := a, calls := [], cbs := [(.fls, .bool true)] } :=
  logOut_none a us h

/-- C6 (witness): `logOut` on the fresh agent is a successful no-op. -/
theorem c6_logout_without_href_noop_witness :
    logOut freshAgent failingService =
      { agent := freshAgent, calls := [], cbs := [(.fls, .bool true)] } :=
  c6_logout_without_href_noop freshAgent failingService (by decide)

/-- C7: for every request whose method upper-cases to one of the safe methods
GET, HEAD, OPTIONS, TRACE, `authenticateRequest` returns the request with its
headers untouched — whatever the stored token is — and reports success with
that request. -/
theorem c7_safe_methods_untouched (a : SessionAuthAgent) (req : Request)
    (h : SAFE_METHODS.contains (jsToUpperCase req.method) = true) :
    authenticateRequest a req = (req, [(.fls, .request req)]) := by
  unfold authenticateRequest
  rw [h]

/-- C7 (witness): a lower-case `get` request against an agent with a stored
token keeps its headers. -/
theorem c7_safe_methods_untouched_witness :
    authenticateRequest sessionAgent { method := "get", headers := [] } =
      ({ method := "get", headers := [] },
       [(.fls, .request { method := "get", headers := [] })]) :=
  c7_safe_methods_untouched sessionAgent { method := "get", headers := [] }
    (by decide)

/-- C8: for every request whose method is not safe, `authenticateRequest`
writes the stored token under the header name `X-CSRF-Token` when one is
stored, leaves the headers untouched when none is stored, and in both cases
reports success once with the resulting request. -/
theorem c8_csrf_token_injection (a : SessionAuthAgent) (req : Request)
    (h : SAFE_METHODS.contains (jsToUpperCase req.method) = false) :
    (∀ t, a.storage.getItem KEY_CSRF_TOKEN = some t →
      authenticateRequest a req =
        ({ req with headers := Store.setItem req.headers "X-CSRF-Token" t },
         [(.fls, .request
            { req with
                headers := Store.setItem req.headers "X-CSRF-Token" t })])) ∧
    (a.storage.getItem KEY_CSRF_TOKEN = none →
      authenticateRequest a req = (req, [(.fls, .request req)])) := by
  constructor
  · intro t ht
    unfold authenticateRequest
    rw [h, ht]
  · intro ht
    unfold authenticateRequest
    rw [h, ht]

/-- C8 (witness): a `POST` request against the populated agent gains the
header `X-CSRF-Token: tok1`. -/
theorem c8_csrf_token_injection_witness :
    authenticateRequest sessionAgent { method := "POST", headers := [] } =
      ({ method := "POST", headers := [("X-CSRF-Token", "tok1")] },
       [(.fls, .request
          { method := "POST", headers := [("X-CSRF-Token", "tok1")] })]) :=
  (c8_csrf_token_injection sessionAgent { method := "POST", headers := [] }
    (by decide)).1 "tok1" (by decide)

/-- C9 (counterexample): `logIn` on an agent with a stored session, against a
collaborator whose `deleteSession` reports an error, calls `deleteSession`,
receives a truthy error, yet resolves the caller's callback with success
`(false, true)` — the collaborator's error is silently swallowed, contrary to
the claim that every collaborator error reaches a caller callback. -/
theorem c9_logIn_swallows_delete_error :
    (logIn sessionAgent failingService).calls =
      [.deleteSession "/sessions/abc"] ∧
    (failingService.deleteSession "/sessions/abc").1.truthy = true ∧
    (logIn sessionAgent failingService).cbs = [(.fls, .bool true)] := by
  decide

/-- C9 (amended): every operation (`ensureAuthentication`, `isLoggedIn`,
`logOut`, `logIn`, `authenticateRequest`) resolves its callback exactly once,
and `ensureAuthentication`, `isLoggedIn` and `logOut` pass every collaborator
`(error, result)` pair through unchanged to their own callback; `logIn`,
however, discards the outcome of its internal `logOut` and only forwards the
outcome of the subsequent `ensureAuthentication`. -/
theorem c9_exactly_once_resolution (a : SessionAuthAgent) (us : UserService)
    (req : Request) :
    (ensureAuthentication a us).cbs.length = 1 ∧
    (isLoggedIn a us).cbs.length = 1 ∧
    (logOut a us).cbs.length = 1 ∧
    (logIn a us).cbs.length = 1 ∧
    (authenticateRequest a req).2.length = 1 ∧
    (∀ sid, a.storage.getItem KEY_SESSION_ID = some sid →
      (isLoggedIn a us).cbs = [us.refreshSession sid]) ∧
    (∀ href, a.storage.getItem KEY_SESSION_HREF = some href →
      (logOut a us).cbs = [us.deleteSession href]) ∧
    (a.storage.getItem KEY_SESSION_ID = none →
      (us.createSession
        (UserService.newSessionCreateStruct a.login a.password)).1.truthy = true →
      (ensureAuthentication a us).cbs =
        [((us.createSession
            (UserService.newSessionCreateStruct a.login a.password)).1,
          .resp (us.createSession
            (UserService.newSessionCreateStruct a.login a.password)).2)]) := by
  refine ⟨ensureAuthentication_cbs_length a us, isLoggedIn_cbs_length a us,
    logOut_cbs_length a us, logIn_cbs_length a us,
    authenticateRequest_cbs_length a req, ?_, ?_, ?_⟩
  · intro sid h
    rw [isLoggedIn_some a us sid h]
  · intro href h
    rw [logOut_some a us href h]
  · intro h1 h2
    rw [ensureAuthentication_none_err a us h1 h2]

/-- C9 (witness): against the failing collaborator, `logOut` forwards the
delete error unchanged and `ensureAuthentication` resolves exactly once. -/
theorem c9_exactly_once_resolution_witness :
    (logOut sessionAgent failingService).cbs =
      [failingService.deleteSession "/sessions/abc"] ∧
    (ensureAuthentication sessionAgent failingService).cbs.length = 1 :=
  ⟨(c9_exactly_once_resolution sessionAgent failingService
      { method := "POST", headers := [] }).2.2.2.2.2.2.1 "/sessions/abc"
      (by decide),
   (c9_exactly_once_resolution sessionAgent failingService
      { method := "POST", headers := [] }).1⟩

/-- C10: constructing with a complete session descriptor (name, identifier,
href, csrfToken all truthy, no complete credential pair) succeeds and writes
all four fields into the Store as a side effect of construction, so a
subsequent `ensureAuthentication` makes no collaborator call and reports
success with the agent unchanged. -/
theorem c10_descriptor_construction (info : AuthInfo) (storage : Store)
    (us : UserService)
    (hname : jsTruthy info.name = true)
    (hident : jsTruthy info.identifier = true)
    (hhref : jsTruthy info.href = true)
    (htok : jsTruthy info.csrfToken = true)
    (hcred : (jsTruthy info.login && jsTruthy info.password) = false) :
    ∃ a, SessionAuthAgent.construct (some info) storage = Except.ok a ∧
      a.storage.getItem KEY_SESSION_NAME = some (info.name.getD "") ∧
      a.storage.getItem KEY_SESSION_ID = some (info.identifier.getD "") ∧
      a.storage.getItem KEY_SESSION_HREF = some (info.href.getD "") ∧
      a.storage.getItem KEY_CSRF_TOKEN = some (info.csrfToken.getD "") ∧
      ensureAuthentication a us =
        { agent := a, calls := [], cbs := [(.fls, .bool true)] } := by
  refine ⟨{ login := "", password := "",
            storage := storeSessionInfo storage
              { name := info.name.getD ""
                identifier := info.identifier.getD ""
                href := info.href.getD ""
                csrfToken := info.csrfToken.getD "" } },
    ?_, ?_, ?_, ?_, ?_, ?_⟩
  · simp [SessionAuthAgent.construct, hcred, hname, hident, hhref, htok]
  · exact getItem_storeSessionInfo_name _ _
  · exact getItem_storeSessionInfo_id _ _
  · exact getItem_storeSessionInfo_href _ _
  · exact getItem_storeSessionInfo_token _ _
  · exact ensureAuthentication_some _ us (info.identifier.getD "")
      (getItem_storeSessionInfo_id _ _)

/-- C10 (witness): the documented session descriptor yields an agent whose
storage holds the identifier and whose `ensureAuthentication` is an immediate
success without collaborator calls. -/
theorem c10_descriptor_construction_witness :
    ∃ a, SessionAuthAgent.construct
        (some { name := some "eZSESSID", identifier := some "abc",
                href := some "/sessions/abc", csrfToken := some "tok1" }) [] =
      Except.ok a ∧
      a.storage.getItem KEY_SESSION_ID = some "abc" ∧
      ensureAuthentication a okService =
        { agent := a, calls := [], cbs := [(.fls, .bool true)] } := by
  obtain ⟨a, h1, _, h3, _, _, h6⟩ :=
    c10_descriptor_construction
      { name := some "eZSESSID", identifier := some "abc",
        href := some "/sessions/abc", csrfToken := some "tok1" } [] okService
      (by decide) (by decide) (by decide) (by decide) (by decide)
  exact ⟨a, h1, h3, h6⟩
